import Mathlib

/-!
Verification of the solxpect solar-production estimator.

We shallowly embed the two Python entry points over the real numbers:
`Solar.Excel` models `solar_optimizer_excel.py` and `Solar.App` models
`solar_optimizer_app.py`.  Python `math` floating-point operations are
modelled by their exact real counterparts (`Real.sin`, `Real.arcsin`, ...),
and `float('inf')` is modelled by `⊤ : EReal`.
-/

namespace Solar

noncomputable section

open Real

/-- Model of Python `math.radians`. -/
def radians (d : ℝ) : ℝ := d * π / 180

/-- Model of Python `math.degrees`. -/
def degrees (r : ℝ) : ℝ := r * 180 / π

/-- Model of Python `math.atan2 y x` (the two-argument arctangent). -/
def atan2 (y x : ℝ) : ℝ :=
  if 0 < x then Real.arctan (y / x)
  else if x < 0 then
    (if 0 ≤ y then Real.arctan (y / x) + π else Real.arctan (y / x) - π)
  else
    (if 0 < y then π / 2 else if y < 0 then -(π / 2) else 0)

/-- The fields of a Python `datetime` that the power formulas read:
`timestamp.timetuple().tm_yday`, `timestamp.hour`, `timestamp.minute`. -/
structure Timestamp where
  day_of_year : ℕ
  hour : ℕ
  minute : ℕ

/-- Solar declination, identical in both source files:
`23.45 * math.sin(math.radians((284 + day_of_year) * 360.0 / 365))`. -/
def declination (timestamp : Timestamp) : ℝ :=
  23.45 * Real.sin (radians ((284 + (timestamp.day_of_year : ℝ)) * 360 / 365))

/-- Hour angle, identical in both source files:
`(hour - 12) * 15` with `hour = timestamp.hour + timestamp.minute / 60.0`. -/
def hour_angle (timestamp : Timestamp) : ℝ :=
  ((timestamp.hour : ℝ) + (timestamp.minute : ℝ) / 60 - 12) * 15

/-- Solar elevation, identical in both source files. -/
def elevation (lat : ℝ) (timestamp : Timestamp) : ℝ :=
  degrees (Real.arcsin (
    Real.sin (radians (declination timestamp)) * Real.sin (radians lat) +
    Real.cos (radians (declination timestamp)) * Real.cos (radians lat) *
      Real.cos (radians (hour_angle timestamp))))

/-- Solar azimuth (simplified), identical in both source files, including the
normalization `if solar_azimuth < 0: solar_azimuth += 360`. -/
def solar_azimuth (lat : ℝ) (timestamp : Timestamp) : ℝ :=
  let a := degrees (atan2 (-Real.sin (radians (hour_angle timestamp)))
    (Real.tan (radians (declination timestamp)) * Real.cos (radians lat) -
     Real.sin (radians lat) * Real.cos (radians (hour_angle timestamp))))
  if a < 0 then a + 360 else a

namespace Excel

/-- Model of `calculate_angle_of_incidence` from `solar_optimizer_excel.py`. -/
def calculate_angle_of_incidence (sun_azimuth sun_elevation panel_azimuth panel_tilt : ℝ) : ℝ :=
  let sa := radians sun_azimuth
  let se := radians sun_elevation
  let pa := radians panel_azimuth
  let pt := radians panel_tilt
  let cos_incidence :=
    Real.sin se * Real.cos pt + Real.cos se * Real.sin pt * Real.cos (sa - pa)
  let clamped := max (-1) (min 1 cos_incidence)
  degrees (Real.arccos clamped)

/-- Model of `calculate_power` from `solar_optimizer_excel.py`.  The sun-position
formulas it inlines are the shared `Solar.declination` / `Solar.elevation` /
`Solar.solar_azimuth` definitions above.  `lon` is accepted and unused, as in
the source. -/
def calculate_power (lat lon azimuth tilt direct_normal diffuse shortwave : ℝ)
    (timestamp : Timestamp) (temperature : ℝ) : ℝ :=
  if elevation lat timestamp ≤ 0 then 0
  else
    let angle_of_incidence :=
      calculate_angle_of_incidence (solar_azimuth lat timestamp)
        (elevation lat timestamp) azimuth tilt
    let cosine_factor := max 0 (Real.cos (radians angle_of_incidence))
    let total_radiation :=
      direct_normal * cosine_factor +
      diffuse * (1 + Real.cos (radians tilt)) / 2 +
      shortwave * 0.2 * (1 - Real.cos (radians tilt)) / 2
    let temp_effect := 1 + (temperature - 25) * (-0.004)
    max 0 (total_radiation * temp_effect * 0.95)

/-- Model of `calculate_optimal_angles` from `solar_optimizer_excel.py`; `longitude`
is accepted and unused, as in the source. -/
def calculate_optimal_angles (latitude longitude : ℝ) : ℝ × ℝ :=
  let optimal_azimuth : ℝ := if latitude ≥ 0 then 180.0 else 0.0
  let abs_latitude := |latitude|
  let optimal_tilt :=
    if abs_latitude < 25 then abs_latitude * 0.87
    else if abs_latitude < 50 then abs_latitude
    else abs_latitude * 0.9
  (optimal_azimuth, optimal_tilt)

end Excel

namespace App

/-- Model of `calculate_solar_power` from `solar_optimizer_app.py`.  It inlines the
angle-of-incidence block instead of calling a helper, and takes the
temperature coefficient as a parameter. -/
def calculate_solar_power (lat lon azimuth tilt direct_normal diffuse shortwave : ℝ)
    (timestamp : Timestamp) (temperature temp_coefficient : ℝ) : ℝ :=
  if elevation lat timestamp ≤ 0 then 0
  else
    let sa := radians (solar_azimuth lat timestamp)
    let se := radians (elevation lat timestamp)
    let pa := radians azimuth
    let pt := radians tilt
    let cos_incidence :=
      max (-1) (min 1 (Real.sin se * Real.cos pt + Real.cos se * Real.sin pt * Real.cos (sa - pa)))
    let angle_of_incidence := degrees (Real.arccos cos_incidence)
    let cosine_factor := max 0 (Real.cos (radians angle_of_incidence))
    let total_radiation :=
      direct_normal * cosine_factor +
      diffuse * (1 + Real.cos (radians tilt)) / 2 +
      shortwave * 0.2 * (1 - Real.cos (radians tilt)) / 2
    let temp_effect := 1 + (temperature - 25) * (temp_coefficient / 100)
    max 0 (total_radiation * temp_effect)

/-- Model of `calculate_optimal_angles` from `solar_optimizer_app.py` (latitude only;
also returns hemisphere, facing direction and climate-zone labels). -/
def calculate_optimal_angles (latitude : ℝ) : ℝ × ℝ × String × String × String :=
  let res : ℝ × String × String := if latitude ≥ 0 then (180.0, "Northern", "South")
    else (0.0, "Southern", "North")
  let abs_latitude := |latitude|
  let tz : ℝ × String :=
    if abs_latitude < 25 then (abs_latitude * 0.87, "Tropical")
    else if abs_latitude < 50 then (abs_latitude, "Temperate")
    else (abs_latitude * 0.9, "High Latitude")
  (res.1, tz.1, res.2.1, res.2.2, tz.2)

/-- Model of `calculate_temperature_coefficient` from `solar_optimizer_app.py`. -/
def calculate_temperature_coefficient (latitude : ℝ) : ℝ :=
  let abs_latitude := |latitude|
  if abs_latitude < 15 then -0.45
  else if abs_latitude < 30 then -0.42
  else if abs_latitude < 45 then -0.40
  else if abs_latitude < 60 then -0.38
  else -0.35

end App

/-- The comparison Python's `max(iterable, key=get)` performs while scanning:
the current best is replaced only when the new key is strictly greater, so on
ties the earlier element is kept.  The same first-occurrence rule is what
pandas `idxmax` applies in the dashboard. -/
def peak_step {β : Type} [LinearOrder β] (acc y : ℕ × β) : ℕ × β :=
  if acc.2 < y.2 then y else acc

/-- Peak-day selection over the (date, daily total) pairs, modelling
`max(daily_energy, key=daily_energy.get)` in the script and
`daily_df.loc[daily_df[...].idxmax()]` in the dashboard.  Dates are the ℕ
ordinals of calendar dates in chronological dictionary/group order. -/
def selectPeak {β : Type} [LinearOrder β] : List (ℕ × β) → Option (ℕ × β)
  | [] => none
  | x :: xs => some (xs.foldl peak_step x)

/-- One hourly production sample as the aggregation loops see it: the
calendar-date ordinal `timestamp.date()`, the month index
`timestamp.month - 1`, and the sample's energy (= power, Wh). -/
structure Sample where
  date : ℕ
  month : Fin 12
  energy : ℝ

/-- The `total_energy += power` accumulation over the series. -/
def total_energy (l : List Sample) : ℝ :=
  l.foldl (fun acc s => acc + s.energy) 0

/-- The `monthly_energy[timestamp.month - 1] += power` array accumulation. -/
def monthly_energy (l : List Sample) : Fin 12 → ℝ :=
  l.foldl (fun acc s => Function.update acc s.month (acc s.month + s.energy))
    (fun _ => 0)

/-- The `daily_energy[date_key] = daily_energy.get(date_key, 0) + power`
dictionary accumulation (a date absent from the dict reads as 0). -/
def daily_energy (l : List Sample) : ℕ → ℝ :=
  l.foldl (fun acc s => Function.update acc s.date (acc s.date + s.energy))
    (fun _ => 0)

/-- The key set of the daily dictionary: the distinct dates in the series. -/
def sampleDates (l : List Sample) : Finset ℕ :=
  (l.map Sample.date).toFinset

/-- Model of `payback_years = system_cost / annual_savings if annual_savings > 0 else
float('inf')` from `solar_optimizer_app.py`; the float infinity is modelled
by `⊤ : EReal`. -/
def payback_years (system_cost annual_savings : ℝ) : EReal :=
  if annual_savings > 0 then ((system_cost / annual_savings : ℝ) : EReal) else ⊤

/-- The reported payback value: the table shows the number when
`payback_years < 100` and the string 'N/A' (modelled by `none`) otherwise. -/
def payback_report (system_cost annual_savings : ℝ) : Option ℝ :=
  if payback_years system_cost annual_savings < ((100 : ℝ) : EReal) then
    some (payback_years system_cost annual_savings).toReal
  else none

/-- Helper: the excel script's per-sample power is exactly 0.95 times the
dashboard's per-sample power once the dashboard's coefficient is -0.4. -/
theorem power_scaling (lat lon azimuth tilt direct_normal diffuse shortwave : ℝ)
    (timestamp : Timestamp) (temperature : ℝ) :
    Excel.calculate_power lat lon azimuth tilt direct_normal diffuse shortwave
      timestamp temperature =
    0.95 * App.calculate_solar_power lat lon azimuth tilt direct_normal diffuse shortwave
      timestamp temperature (-0.4) := by
  unfold Excel.calculate_power App.calculate_solar_power Excel.calculate_angle_of_incidence
  split_ifs with h
  · norm_num
  · have hcoef : (1 + (temperature - 25) * (-0.004) : ℝ) =
        1 + (temperature - 25) * (-0.4 / 100) := by norm_num
    rw [hcoef, mul_comm (0.95 : ℝ),
      max_mul_of_nonneg _ _ (by norm_num : (0:ℝ) ≤ 0.95), zero_mul]

/-- C1: for every location, panel orientation, weather sample and timestamp,
both power functions return exactly 0 whenever the computed solar elevation
is ≤ 0, regardless of the irradiance inputs. -/
theorem power_eq_zero_of_elevation_nonpos
    (lat lon azimuth tilt direct_normal diffuse shortwave : ℝ)
    (timestamp : Timestamp) (temperature temp_coefficient : ℝ)
    (h : elevation lat timestamp ≤ 0) :
    Excel.calculate_power lat lon azimuth tilt direct_normal diffuse shortwave
      timestamp temperature = 0 ∧
    App.calculate_solar_power lat lon azimuth tilt direct_normal diffuse shortwave
      timestamp temperature temp_coefficient = 0 := by
  constructor
  · simp only [Excel.calculate_power, if_pos h]
  · simp only [App.calculate_solar_power, if_pos h]

/-- C2: for every input, both power functions return a value ≥ 0. -/
theorem power_nonneg
    (lat lon azimuth tilt direct_normal diffuse shortwave : ℝ)
    (timestamp : Timestamp) (temperature temp_coefficient : ℝ) :
    0 ≤ Excel.calculate_power lat lon azimuth tilt direct_normal diffuse shortwave
      timestamp temperature ∧
    0 ≤ App.calculate_solar_power lat lon azimuth tilt direct_normal diffuse shortwave
      timestamp temperature temp_coefficient := by
  constructor
  · simp only [Excel.calculate_power]
    split_ifs with h
    · exact le_refl 0
    · exact le_max_left 0 _
  · simp only [App.calculate_solar_power]
    split_ifs with h
    · exact le_refl 0
    · exact le_max_left 0 _

/-- C3: for every combination of sun azimuth, sun elevation, panel azimuth and
panel tilt, the angle-of-incidence computation is total and yields an angle in
[0°, 180°] (the cosine is clamped to [-1, 1] before the inverse cosine). -/
theorem angle_of_incidence_mem_range
    (sun_azimuth sun_elevation panel_azimuth panel_tilt : ℝ) :
    0 ≤ Excel.calculate_angle_of_incidence sun_azimuth sun_elevation panel_azimuth panel_tilt ∧
    Excel.calculate_angle_of_incidence sun_azimuth sun_elevation panel_azimuth panel_tilt ≤ 180 := by
  simp only [Excel.calculate_angle_of_incidence, degrees]
  constructor
  · apply div_nonneg _ Real.pi_pos.le
    exact mul_nonneg (Real.arccos_nonneg _) (by norm_num)
  · rw [div_le_iff₀ Real.pi_pos]
    have h := Real.arccos_le_pi (max (-1) (min 1
      (Real.sin (radians sun_elevation) * Real.cos (radians panel_tilt) +
       Real.cos (radians sun_elevation) * Real.sin (radians panel_tilt) *
         Real.cos (radians sun_azimuth - radians panel_azimuth))))
    nlinarith [Real.pi_pos]

/-- Helper: the azimuth returned by the excel optimizer. -/
theorem excel_azimuth_eq (L lon : ℝ) :
    (Excel.calculate_optimal_angles L lon).1 = if L ≥ 0 then 180 else 0 := by
  dsimp only [Excel.calculate_optimal_angles]
  split_ifs <;> norm_num

/-- Helper: the tilt returned by the excel optimizer. -/
theorem excel_tilt_eq (L lon : ℝ) :
    (Excel.calculate_optimal_angles L lon).2 =
      if |L| < 25 then |L| * 0.87 else if |L| < 50 then |L| else |L| * 0.9 := by
  dsimp only [Excel.calculate_optimal_angles]

/-- Helper: the azimuth returned by the dashboard optimizer. -/
theorem app_azimuth_eq (L : ℝ) :
    (App.calculate_optimal_angles L).1 = if L ≥ 0 then 180 else 0 := by
  dsimp only [App.calculate_optimal_angles]
  split_ifs <;> norm_num

/-- Helper: the tilt returned by the dashboard optimizer. -/
theorem app_tilt_eq (L : ℝ) :
    (App.calculate_optimal_angles L).2.1 =
      if |L| < 25 then |L| * 0.87 else if |L| < 50 then |L| else |L| * 0.9 := by
  dsimp only [App.calculate_optimal_angles]
  split_ifs <;> rfl

/-- C4: for every latitude in [-90, 90], the optimizers return a tilt in
[0, 90], azimuth exactly 180 when latitude ≥ 0 and exactly 0 when
latitude < 0, with no dependency on longitude. -/
theorem optimal_angles_bounds (L lon : ℝ) (h1 : -90 ≤ L) (h2 : L ≤ 90) :
    (0 ≤ (Excel.calculate_optimal_angles L lon).2 ∧
      (Excel.calculate_optimal_angles L lon).2 ≤ 90) ∧
    (App.calculate_optimal_angles L).2.1 = (Excel.calculate_optimal_angles L lon).2 ∧
    (L ≥ 0 → (Excel.calculate_optimal_angles L lon).1 = 180 ∧
      (App.calculate_optimal_angles L).1 = 180) ∧
    (L < 0 → (Excel.calculate_optimal_angles L lon).1 = 0 ∧
      (App.calculate_optimal_angles L).1 = 0) ∧
    (∀ lon₂ : ℝ, Excel.calculate_optimal_angles L lon =
      Excel.calculate_optimal_angles L lon₂) := by
  have habs : |L| ≤ 90 := abs_le.mpr ⟨h1, h2⟩
  have h0 : (0:ℝ) ≤ |L| := abs_nonneg L
  refine ⟨?_, ?_, fun hL => ?_, fun hL => ?_, fun lon₂ => rfl⟩
  · rw [excel_tilt_eq]
    split_ifs with ha hb
    · constructor <;> nlinarith
    · constructor <;> nlinarith
    · constructor <;> nlinarith
  · rw [app_tilt_eq, excel_tilt_eq]
  · rw [excel_azimuth_eq, app_azimuth_eq, if_pos hL]
    exact ⟨rfl, rfl⟩
  · have hn : ¬ (L ≥ 0) := not_le.mpr hL
    rw [excel_azimuth_eq, app_azimuth_eq, if_neg hn]
    exact ⟨rfl, rfl⟩

/-- C4 witness at latitude 60, longitude 0. -/
theorem optimal_angles_bounds_witness :
    (0 ≤ (Excel.calculate_optimal_angles 60 0).2 ∧
      (Excel.calculate_optimal_angles 60 0).2 ≤ 90) ∧
    (App.calculate_optimal_angles 60).2.1 = (Excel.calculate_optimal_angles 60 0).2 ∧
    ((60:ℝ) ≥ 0 → (Excel.calculate_optimal_angles 60 0).1 = 180 ∧
      (App.calculate_optimal_angles 60).1 = 180) ∧
    ((60:ℝ) < 0 → (Excel.calculate_optimal_angles 60 0).1 = 0 ∧
      (App.calculate_optimal_angles 60).1 = 0) ∧
    (∀ lon₂ : ℝ, Excel.calculate_optimal_angles 60 0 =
      Excel.calculate_optimal_angles 60 lon₂) :=
  optimal_angles_bounds 60 0 (by norm_num) (by norm_num)

/-- C5: the tilt band boundaries are half-open with 25.0 and 50.0 belonging to
the higher band: tilt is lat × 0.87 for lat < 25, exactly lat for
25 ≤ lat < 50, and lat × 0.9 for lat ≥ 50 (both implementations). -/
theorem tilt_band_boundaries (L lon : ℝ) :
    (|L| < 25 → (Excel.calculate_optimal_angles L lon).2 = |L| * 0.87 ∧
      (App.calculate_optimal_angles L).2.1 = |L| * 0.87) ∧
    (25 ≤ |L| → |L| < 50 → (Excel.calculate_optimal_angles L lon).2 = |L| ∧
      (App.calculate_optimal_angles L).2.1 = |L|) ∧
    (50 ≤ |L| → (Excel.calculate_optimal_angles L lon).2 = |L| * 0.9 ∧
      (App.calculate_optimal_angles L).2.1 = |L| * 0.9) := by
  refine ⟨fun h => ?_, fun h h2 => ?_, fun h => ?_⟩
  · rw [excel_tilt_eq, if_pos h, app_tilt_eq, if_pos h]
    exact ⟨rfl, rfl⟩
  · have hn : ¬ |L| < 25 := not_lt.mpr h
    rw [excel_tilt_eq, if_neg hn, if_pos h2, app_tilt_eq, if_neg hn, if_pos h2]
    exact ⟨rfl, rfl⟩
  · have hn25 : ¬ |L| < 25 := not_lt.mpr (le_trans (by norm_num) h)
    have hn50 : ¬ |L| < 50 := not_lt.mpr h
    rw [excel_tilt_eq, if_neg hn25, if_neg hn50, app_tilt_eq, if_neg hn25, if_neg hn50]
    exact ⟨rfl, rfl⟩

/-- C5 witness: tilt(25) = 25 (temperate band), tilt(24.999) = 24.999 × 0.87
(tropical band), tilt(50) = 50 × 0.9 (high-latitude band). -/
theorem tilt_band_boundaries_witness :
    (Excel.calculate_optimal_angles 25 0).2 = 25 ∧
    (Excel.calculate_optimal_angles 24.999 0).2 = 24.999 * 0.87 ∧
    (Excel.calculate_optimal_angles 50 0).2 = 50 * 0.9 := by
  have h25 : |(25:ℝ)| = 25 := abs_of_nonneg (by norm_num)
  have h24 : |(24.999:ℝ)| = 24.999 := abs_of_nonneg (by norm_num)
  have h50 : |(50:ℝ)| = 50 := abs_of_nonneg (by norm_num)
  refine ⟨?_, ?_, ?_⟩
  · have h := (tilt_band_boundaries 25 0).2.1 (by rw [h25]) (by rw [h25]; norm_num)
    rw [h25] at h
    exact h.1
  · have h := (tilt_band_boundaries 24.999 0).1 (by rw [h24]; norm_num)
    rw [h24] at h
    exact h.1
  · have h := (tilt_band_boundaries 50 0).2.2 (by rw [h50])
    rw [h50] at h
    exact h.1

/-- C6 (amended): the dashboard's temperature coefficient is the five-band
step function over the absolute latitude and is always negative; the
standalone script's power function instead applies a fixed -0.4 %/°C
coefficient (its power equals 0.95 times the dashboard's power at
coefficient -0.4, for every latitude). -/
theorem temperature_coefficient_bands :
    (∀ L : ℝ,
      ((|L| < 15 → App.calculate_temperature_coefficient L = -0.45) ∧
       (15 ≤ |L| → |L| < 30 → App.calculate_temperature_coefficient L = -0.42) ∧
       (30 ≤ |L| → |L| < 45 → App.calculate_temperature_coefficient L = -0.40) ∧
       (45 ≤ |L| → |L| < 60 → App.calculate_temperature_coefficient L = -0.38) ∧
       (60 ≤ |L| → App.calculate_temperature_coefficient L = -0.35)) ∧
      App.calculate_temperature_coefficient L < 0) ∧
    (∀ (lat lon azimuth tilt direct_normal diffuse shortwave : ℝ)
       (timestamp : Timestamp) (temperature : ℝ),
      Excel.calculate_power lat lon azimuth tilt direct_normal diffuse shortwave
        timestamp temperature =
      0.95 * App.calculate_solar_power lat lon azimuth tilt direct_normal diffuse
        shortwave timestamp temperature (-0.4)) := by
  constructor
  · intro L
    constructor
    · refine ⟨fun h => ?_, fun h h2 => ?_, fun h h2 => ?_, fun h h2 => ?_, fun h => ?_⟩
      · simp only [App.calculate_temperature_coefficient]
        rw [if_pos h]
      · simp only [App.calculate_temperature_coefficient]
        rw [if_neg (not_lt.mpr h), if_pos h2]
      · simp only [App.calculate_temperature_coefficient]
        rw [if_neg (not_lt.mpr (le_trans (by norm_num) h)),
          if_neg (not_lt.mpr h), if_pos h2]
      · simp only [App.calculate_temperature_coefficient]
        rw [if_neg (not_lt.mpr (le_trans (by norm_num) h)),
          if_neg (not_lt.mpr (le_trans (by norm_num) h)),
          if_neg (not_lt.mpr h), if_pos h2]
      · simp only [App.calculate_temperature_coefficient]
        rw [if_neg (not_lt.mpr (le_trans (by norm_num) h)),
          if_neg (not_lt.mpr (le_trans (by norm_num) h)),
          if_neg (not_lt.mpr (le_trans (by norm_num) h)),
          if_neg (not_lt.mpr h)]
    · simp only [App.calculate_temperature_coefficient]
      split_ifs <;> norm_num
  · exact power_scaling

/-- C6 witness at latitude 10 (equatorial band). -/
theorem temperature_coefficient_bands_witness :
    App.calculate_temperature_coefficient 10 = -0.45 ∧
    App.calculate_temperature_coefficient 10 < 0 := by
  have habs : |(10:ℝ)| = 10 := abs_of_nonneg (by norm_num)
  exact ⟨(temperature_coefficient_bands.1 10).1.1 (by norm_num [habs]),
    (temperature_coefficient_bands.1 10).2⟩

/-- C7: for every identical input, with the dashboard's temperature
coefficient set to -0.4, the standalone script's power function returns
exactly 0.95 times the dashboard's power function. -/
theorem excel_power_scales_app_power
    (lat lon azimuth tilt direct_normal diffuse shortwave : ℝ)
    (timestamp : Timestamp) (temperature : ℝ) :
    Excel.calculate_power lat lon azimuth tilt direct_normal diffuse shortwave
      timestamp temperature =
    0.95 * App.calculate_solar_power lat lon azimuth tilt direct_normal diffuse shortwave
      timestamp temperature (-0.4) :=
  power_scaling lat lon azimuth tilt direct_normal diffuse shortwave timestamp temperature


theorem radians_zero : radians 0 = 0 := by
  unfold radians; ring

theorem degrees_zero : degrees 0 = 0 := by
  unfold degrees; ring

theorem radians_ninety : radians 90 = π / 2 := by
  unfold radians; ring

theorem radians_one_eighty : radians 180 = π := by
  unfold radians; ring

theorem degrees_pi_div_two : degrees (π / 2) = 90 := by
  have hπ := Real.pi_ne_zero
  unfold degrees; field_simp; ring

theorem atan2_zero_zero : atan2 0 0 = 0 := by
  unfold atan2; norm_num

theorem declination_day81 (h m : ℕ) : declination ⟨81, h, m⟩ = 0 := by
  show (23.45:ℝ) * Real.sin (radians ((284 + ((81:ℕ):ℝ)) * 360 / 365)) = 0
  have h1 : radians ((284 + ((81:ℕ):ℝ)) * 360 / 365) = 2 * π := by
    unfold radians; push_cast; ring
  rw [h1, Real.sin_two_pi, mul_zero]

theorem hour_angle_noon (d : ℕ) : hour_angle ⟨d, 12, 0⟩ = 0 := by
  show (((12:ℕ):ℝ) + ((0:ℕ):ℝ) / 60 - 12) * 15 = 0
  push_cast; ring

theorem elevation_equator_day81 : elevation 0 ⟨81, 12, 0⟩ = 90 := by
  unfold elevation
  rw [declination_day81, hour_angle_noon, radians_zero]
  rw [Real.sin_zero, Real.cos_zero]
  norm_num [Real.arcsin_one, degrees_pi_div_two]

theorem elevation_pole_day81 : elevation 90 ⟨81, 12, 0⟩ = 0 := by
  unfold elevation
  rw [declination_day81, hour_angle_noon, radians_zero, radians_ninety]
  norm_num [Real.cos_pi_div_two, Real.arcsin_zero, degrees_zero]

theorem solar_azimuth_equator_day81 : solar_azimuth 0 ⟨81, 12, 0⟩ = 0 := by
  unfold solar_azimuth
  rw [declination_day81, hour_angle_noon, radians_zero]
  simp [Real.tan_zero, atan2_zero_zero, degrees_zero]

theorem incidence_overhead : Excel.calculate_angle_of_incidence 0 90 180 0 = 0 := by
  unfold Excel.calculate_angle_of_incidence
  rw [radians_zero, radians_ninety, radians_one_eighty]
  norm_num [Real.sin_pi_div_two, Real.cos_pi_div_two, Real.arccos_one, degrees_zero]


theorem excel_power_value :
    Excel.calculate_power 0 0 180 0 1000 0 0 ⟨81, 12, 0⟩ 35 = 912 := by
  unfold Excel.calculate_power
  rw [if_neg (by rw [elevation_equator_day81]; norm_num : ¬ elevation 0 ⟨81, 12, 0⟩ ≤ 0)]
  rw [solar_azimuth_equator_day81, elevation_equator_day81, incidence_overhead]
  norm_num [radians_zero, Real.cos_zero]

theorem app_power_value :
    App.calculate_solar_power 0 0 180 0 1000 0 0 ⟨81, 12, 0⟩ 35 (-0.45) = 955 := by
  unfold App.calculate_solar_power
  rw [if_neg (by rw [elevation_equator_day81]; norm_num : ¬ elevation 0 ⟨81, 12, 0⟩ ≤ 0)]
  rw [solar_azimuth_equator_day81, elevation_equator_day81]
  rw [radians_zero, radians_ninety, radians_one_eighty]
  norm_num [Real.sin_pi_div_two, Real.cos_pi_div_two, Real.arccos_one, degrees_zero,
    radians_zero]

theorem tempcoef_zero : App.calculate_temperature_coefficient 0 = -0.45 := by
  dsimp only [App.calculate_temperature_coefficient]
  norm_num


/-- C6 counterexample: at latitude 0 (equatorial band, latitude-derived
coefficient -0.45), the standalone script's power does not agree with the
dashboard's power driven by the latitude-derived coefficient (even after the
script's fixed ×0.95 scaling): the script applies the fixed -0.4 coefficient
instead. -/
theorem fixed_coefficient_counterexample :
    Excel.calculate_power 0 0 180 0 1000 0 0 ⟨81, 12, 0⟩ 35 ≠
    0.95 * App.calculate_solar_power 0 0 180 0 1000 0 0 ⟨81, 12, 0⟩ 35
      (App.calculate_temperature_coefficient 0) := by
  rw [tempcoef_zero, excel_power_value, app_power_value]
  norm_num

/-- C1 witness: at the north pole on day 81 at local noon the computed
elevation is 0 ≤ 0 and both power functions return 0 despite nonzero
irradiance inputs. -/
theorem power_eq_zero_of_elevation_nonpos_witness :
    elevation 90 ⟨81, 12, 0⟩ ≤ 0 ∧
    Excel.calculate_power 90 0 180 30 1000 50 100 ⟨81, 12, 0⟩ 20 = 0 ∧
    App.calculate_solar_power 90 0 180 30 1000 50 100 ⟨81, 12, 0⟩ 20 (-0.4) = 0 := by
  have h : elevation 90 ⟨81, 12, 0⟩ ≤ 0 := by rw [elevation_pole_day81]
  exact ⟨h,
    (power_eq_zero_of_elevation_nonpos 90 0 180 30 1000 50 100 ⟨81, 12, 0⟩ 20 (-0.4) h).1,
    (power_eq_zero_of_elevation_nonpos 90 0 180 30 1000 50 100 ⟨81, 12, 0⟩ 20 (-0.4) h).2⟩


/-- C9: the simple payback metric equals system_cost / annual_savings when
annual_savings is positive; when annual_savings is zero the metric is the
model's infinity and the report shows not-applicable, with no division by
zero and no reported infinity. -/
theorem payback_division_guard (system_cost annual_savings : ℝ) :
    (0 < annual_savings →
      payback_years system_cost annual_savings =
        ((system_cost / annual_savings : ℝ) : EReal)) ∧
    (annual_savings = 0 →
      payback_years system_cost annual_savings = ⊤ ∧
      payback_report system_cost annual_savings = none) := by
  constructor
  · intro h
    unfold payback_years
    rw [if_pos h]
  · intro h
    have h0 : ¬ annual_savings > 0 := by rw [h]; exact lt_irrefl 0
    have htop : payback_years system_cost annual_savings = ⊤ := by
      unfold payback_years
      rw [if_neg h0]
    refine ⟨htop, ?_⟩
    unfold payback_report
    rw [htop, if_neg not_top_lt]

/-- C9 witness: cost 5000 with savings 900 gives payback 5000/900; with
savings 0 the metric is infinite and the report is not-applicable. -/
theorem payback_division_guard_witness :
    payback_years 5000 900 = ((5000 / 900 : ℝ) : EReal) ∧
    payback_years 5000 0 = ⊤ ∧ payback_report 5000 0 = none :=
  ⟨(payback_division_guard 5000 900).1 (by norm_num),
   ((payback_division_guard 5000 0).2 rfl).1,
   ((payback_division_guard 5000 0).2 rfl).2⟩


/-- Helper: the fold underlying `selectPeak` returns an element of the list;
everything strictly before it is strictly smaller and nothing in the list is
larger (Python `max` keeps the first maximal element). -/
theorem peak_foldl_split {β : Type} [LinearOrder β] (xs : List (ℕ × β)) (x : ℕ × β) :
    ∃ l₁ l₂, x :: xs = l₁ ++ (xs.foldl peak_step x) :: l₂ ∧
      (∀ a ∈ l₁, a.2 < (xs.foldl peak_step x).2) ∧
      (∀ a ∈ x :: xs, a.2 ≤ (xs.foldl peak_step x).2) := by
  induction xs generalizing x with
  | nil =>
    refine ⟨[], [], rfl, by simp, ?_⟩
    intro a ha
    rw [List.mem_singleton.mp ha]
    exact le_refl _
  | cons y ys ih =>
    by_cases h : x.2 < y.2
    · obtain ⟨l₁, l₂, heq, hlt, hle⟩ := ih y
      have hstep : (y :: ys).foldl peak_step x = ys.foldl peak_step y := by
        rw [List.foldl_cons]
        unfold peak_step
        rw [if_pos h]
      rw [hstep]
      refine ⟨x :: l₁, l₂, ?_, ?_, ?_⟩
      · rw [List.cons_append]
        exact congrArg (List.cons x) heq
      · intro a ha
        rcases List.mem_cons.mp ha with rfl | ha'
        · exact lt_of_lt_of_le h (hle y (List.mem_cons_self y ys))
        · exact hlt a ha'
      · intro a ha
        rcases List.mem_cons.mp ha with rfl | ha'
        · exact le_of_lt (lt_of_lt_of_le h (hle y (List.mem_cons_self y ys)))
        · exact hle a ha'
    · obtain ⟨l₁, l₂, heq, hlt, hle⟩ := ih x
      have hy : y.2 ≤ x.2 := not_lt.mp h
      have hstep : (y :: ys).foldl peak_step x = ys.foldl peak_step x := by
        rw [List.foldl_cons]
        unfold peak_step
        rw [if_neg h]
      rw [hstep]
      cases l₁ with
      | nil =>
        rw [List.nil_append] at heq
        have hx : x = ys.foldl peak_step x := (List.cons.injEq _ _ _ _).mp heq |>.1
        refine ⟨[], y :: l₂, ?_, by simp, ?_⟩
        · rw [List.nil_append]
          have hys : ys = l₂ := (List.cons.injEq _ _ _ _).mp heq |>.2
          rw [← hx, ← hys]
        · intro a ha
          rcases List.mem_cons.mp ha with rfl | ha'
          · rw [← hx]
          · rcases List.mem_cons.mp ha' with rfl | ha''
            · rw [← hx]
              exact hy
            · exact hle a (List.mem_cons_of_mem x ha'')
      | cons x' l₁' =>
        have hx : x = x' := (List.cons.injEq _ _ _ _).mp heq |>.1
        have hys : ys = l₁' ++ (ys.foldl peak_step x) :: l₂ :=
          (List.cons.injEq _ _ _ _).mp heq |>.2
        refine ⟨x :: y :: l₁', l₂, ?_, ?_, ?_⟩
        · rw [List.cons_append, List.cons_append]
          exact congrArg (List.cons x) (congrArg (List.cons y) hys)
        · intro a ha
          have hxlt : x.2 < (ys.foldl peak_step x).2 := by
            have h3 := hlt x' (List.mem_cons_self x' l₁')
            rwa [← hx] at h3
          rcases List.mem_cons.mp ha with rfl | ha'
          · exact hxlt
          · rcases List.mem_cons.mp ha' with rfl | ha''
            · exact lt_of_le_of_lt hy hxlt
            · exact hlt a (List.mem_cons_of_mem x' ha'')
        · intro a ha
          rcases List.mem_cons.mp ha with rfl | ha'
          · exact hle a (List.mem_cons_self a ys)
          · rcases List.mem_cons.mp ha' with rfl | ha''
            · exact le_trans hy (hle x (List.mem_cons_self x ys))
            · exact hle a (List.mem_cons_of_mem x ha'')


/-- Helper: characterization of `selectPeak`. -/
theorem selectPeak_spec {β : Type} [LinearOrder β] (l : List (ℕ × β)) (e : ℕ × β)
    (hsel : selectPeak l = some e) :
    ∃ l₁ l₂, l = l₁ ++ e :: l₂ ∧ (∀ a ∈ l₁, a.2 < e.2) ∧ (∀ a ∈ l, a.2 ≤ e.2) := by
  cases l with
  | nil => exact absurd hsel (by simp [selectPeak])
  | cons x xs =>
    have he : xs.foldl peak_step x = e := by
      have := hsel
      unfold selectPeak at this
      exact Option.some.injEq _ _ ▸ this |> Option.some.inj
    obtain ⟨l₁, l₂, heq, hlt, hle⟩ := peak_foldl_split xs x
    rw [he] at heq hlt hle
    exact ⟨l₁, l₂, heq, hlt, hle⟩

/-- C8: on a chronologically sorted list of (date, daily total) pairs with
distinct dates, peak-day selection returns a pair whose total is maximum, and
any date tying that total is no earlier than the selected date. -/
theorem peak_day_max_and_earliest {β : Type} [LinearOrder β] (l : List (ℕ × β))
    (e : ℕ × β) (hsort : l.Pairwise (fun a b => a.1 < b.1))
    (hsel : selectPeak l = some e) :
    (∀ a ∈ l, a.2 ≤ e.2) ∧ (∀ a ∈ l, a.2 = e.2 → e.1 ≤ a.1) := by
  obtain ⟨l₁, l₂, heq, hlt, hle⟩ := selectPeak_spec l e hsel
  refine ⟨hle, ?_⟩
  intro a ha htie
  rw [heq] at hsort
  have hpost : ∀ b ∈ l₂, e.1 < b.1 :=
    (List.pairwise_cons.mp (List.pairwise_append.mp hsort).2.1).1
  rw [heq] at ha
  rcases List.mem_append.mp ha with h1 | h2
  · exact absurd htie (ne_of_lt (hlt a h1))
  · rcases List.mem_cons.mp h2 with rfl | h3
    · exact le_refl _
    · exact le_of_lt (hpost a h3)

/-- C8 witness: on the series [(0,5), (1,7), (2,7)] the pair (1,7) is
selected: its total 7 is the maximum and date 1 is the earlier of the two
tied dates. -/
theorem peak_day_max_and_earliest_witness :
    (∀ a ∈ [((0:ℕ), (5:ℕ)), (1, 7), (2, 7)], a.2 ≤ 7) ∧
    (∀ a ∈ [((0:ℕ), (5:ℕ)), (1, 7), (2, 7)], a.2 = 7 → 1 ≤ a.1) :=
  peak_day_max_and_earliest [((0:ℕ), (5:ℕ)), (1, 7), (2, 7)] (1, 7)
    (by decide) (by decide)


/-- Helper: the running-total fold is the list sum. -/
theorem foldl_add_energy (l : List Sample) (a : ℝ) :
    l.foldl (fun acc s => acc + s.energy) a = a + (l.map Sample.energy).sum := by
  induction l generalizing a with
  | nil => simp
  | cons s t ih =>
    rw [List.foldl_cons, ih, List.map_cons, List.sum_cons]
    ring

/-- Helper: a fold of keyed dictionary updates reads back, at key `c`, the
initial value plus the sum of the energies of the samples keyed `c`. -/
theorem foldl_update_apply {κ : Type} [DecidableEq κ] (k : Sample → κ)
    (l : List Sample) (acc : κ → ℝ) (c : κ) :
    (l.foldl (fun acc s => Function.update acc (k s) (acc (k s) + s.energy)) acc) c =
      acc c + ((l.filter (fun s => k s = c)).map Sample.energy).sum := by
  induction l generalizing acc with
  | nil => simp
  | cons s t ih =>
    rw [List.foldl_cons, ih]
    by_cases h : k s = c
    · rw [List.filter_cons, if_pos (by simp [h]), List.map_cons, List.sum_cons]
      rw [h, Function.update_same]
      ring
    · rw [List.filter_cons, if_neg (by simp [h])]
      rw [Function.update_noteq (fun hc => h hc.symm)]

/-- Helper: summing the per-key filtered energies over any key set containing
every key occurring in the list recovers the full sum. -/
theorem sum_filter_energy {κ : Type} [DecidableEq κ] (k : Sample → κ)
    (l : List Sample) (S : Finset κ) (hS : ∀ s ∈ l, k s ∈ S) :
    ∑ c ∈ S, ((l.filter (fun s => k s = c)).map Sample.energy).sum =
      (l.map Sample.energy).sum := by
  induction l with
  | nil => simp
  | cons s t ih =>
    have hs : k s ∈ S := hS s (List.mem_cons_self s t)
    have ht : ∀ a ∈ t, k a ∈ S := fun a ha => hS a (List.mem_cons_of_mem s ha)
    have hsplit : ∀ c, ((List.filter (fun a => decide (k a = c)) (s :: t)).map
        Sample.energy).sum =
        (if k s = c then s.energy else 0) +
          ((t.filter (fun a => k a = c)).map Sample.energy).sum := by
      intro c
      by_cases h : k s = c
      · rw [List.filter_cons, if_pos (by simp [h]), List.map_cons, List.sum_cons, if_pos h]
      · rw [List.filter_cons, if_neg (by simp [h]), if_neg h, zero_add]
    rw [Finset.sum_congr rfl (fun c _ => hsplit c), Finset.sum_add_distrib, ih ht]
    rw [Finset.sum_ite_eq S (k s) (fun _ => s.energy), if_pos hs]
    rw [List.map_cons, List.sum_cons]

/-- C10: aggregation conserves energy — the annual total equals the sum of
the per-date daily totals over the dates occurring in the series, and equals
the sum of the twelve per-month totals. -/
theorem aggregation_conserves_energy (l : List Sample) :
    (∑ d ∈ sampleDates l, daily_energy l d = total_energy l) ∧
    (∑ m : Fin 12, monthly_energy l m = total_energy l) := by
  have htot : total_energy l = (l.map Sample.energy).sum := by
    unfold total_energy
    rw [foldl_add_energy, zero_add]
  have hdaily : ∀ d, daily_energy l d =
      ((l.filter (fun s => s.date = d)).map Sample.energy).sum := by
    intro d
    unfold daily_energy
    rw [foldl_update_apply Sample.date, zero_add]
  have hmonthly : ∀ m, monthly_energy l m =
      ((l.filter (fun s => s.month = m)).map Sample.energy).sum := by
    intro m
    unfold monthly_energy
    rw [foldl_update_apply Sample.month, zero_add]
  constructor
  · rw [htot, Finset.sum_congr rfl (fun d _ => hdaily d)]
    exact sum_filter_energy Sample.date l (sampleDates l)
      (fun s hs => List.mem_toFinset.mpr (List.mem_map_of_mem Sample.date hs))
  · rw [htot, Finset.sum_congr rfl (fun m _ => hmonthly m)]
    exact sum_filter_energy Sample.month l Finset.univ (fun s _ => Finset.mem_univ _)

end

end Solar
